import Mathlib

/-!
Shallow embedding of the PRSTA-project sources (src/main.py, src/scrap.py)
and proofs about the claims of the specification.

Strings are modelled as lists of characters; Python strings in the code are
translated with the same primitive operations (strip, split, substring
containment, prefix test).  Python floats are modelled exactly as the decimal
values they denote, using rationals, plus the infinity and nan forms accepted
by the builtin float constructor.  Machine floating point rounding is not
modelled: the claims compare parsed values, with the spec itself allowing
floating point tolerance.
-/

/-- A Python string, modelled as the list of its characters. -/
abbrev Str := List Char

/-- Characters removed by Python str.strip() (ASCII whitespace; the unicode
whitespace characters Python also strips are not used by this repository). -/
def isPySpace (c : Char) : Bool :=
  c == ' ' || c == '\t' || c == '\n' || c == '\r' || c == '\x0b' || c == '\x0c'

/-- Python str.strip(): remove leading and trailing whitespace. -/
def pyStrip (s : Str) : Str :=
  ((s.dropWhile isPySpace).reverse.dropWhile isPySpace).reverse

/-- Python str.split(sep) for a one-character separator: keeps empty segments,
and yields one (possibly empty) segment even for the empty string. -/
def pySplit (sep : Char) : Str → List Str
  | [] => [[]]
  | c :: t =>
    if c == sep then [] :: pySplit sep t
    else
      match pySplit sep t with
      | [] => [[c]]
      | h :: r => (c :: h) :: r

/-- Python substring containment: `pat in hay`. -/
def hasSubstr (pat : Str) : Str → Bool
  | [] => pat.isEmpty
  | c :: t => pat.isPrefixOf (c :: t) || hasSubstr pat t

/-- Numeric value of a decimal digit character. -/
def digitVal (c : Char) : Nat := c.toNat - ('0').toNat

/-- Value of a list of decimal digit characters, most significant first. -/
def digitsToNat (s : Str) : Nat := s.foldl (fun a c => 10 * a + digitVal c) 0

/-- Remove the underscore digit separators of a Python numeric literal. -/
def stripUnd (s : Str) : Str := s.filter (fun c => !(c == '_'))

/-- After an initial digit: the rest of a Python digitpart, where a single
underscore may stand between two digits. -/
def digitsRest : Str → Bool
  | [] => true
  | '_' :: c :: t => c.isDigit && digitsRest t
  | '_' :: [] => false
  | c :: t => c.isDigit && digitsRest t

/-- A valid Python digitpart: nonempty digits with single underscores strictly
between digits. -/
def validDigitPart : Str → Bool
  | [] => false
  | c :: t => c.isDigit && digitsRest t

/-- Strip one optional leading sign; returns (isNegative, rest). -/
def splitSign : Str → Bool × Str
  | '+' :: t => (false, t)
  | '-' :: t => (true, t)
  | s => (false, s)

/-- Split a numeric literal at the first exponent marker e or E. -/
def splitOnExp : Str → Str × Option Str
  | [] => ([], none)
  | c :: t =>
    if c == 'e' || c == 'E' then ([], some t)
    else
      match splitOnExp t with
      | (m, e) => (c :: m, e)

/-- Split a mantissa at the first decimal dot. -/
def splitDot : Str → Str × Option Str
  | [] => ([], none)
  | '.' :: t => ([], some t)
  | c :: t =>
    match splitDot t with
    | (a, b) => (c :: a, b)

/-- The values produced by the Python builtin float constructor. -/
inductive PyFloat where
  | fin (q : ℚ)
  | inf (neg : Bool)
  | nan
deriving DecidableEq, Repr

/-- Lowercase a string character by character. -/
def toLowerStr (s : Str) : Str := s.map Char.toLower

/-- Model of the Python builtin float(s): strips whitespace, accepts an
optional sign followed by inf, infinity or nan (case insensitive) or a decimal
number with optional fraction, exponent and underscore digit separators;
returns none exactly when Python float(s) raises ValueError.  Finite results
carry the exact decimal value as a rational. -/
def pyFloatParse (s0 : Str) : Option PyFloat :=
  let s := pyStrip s0
  match splitSign s with
  | (neg, s1) =>
    let low := toLowerStr s1
    if low = ("inf").toList ∨ low = ("infinity").toList then some (.inf neg)
    else if low = ("nan").toList then some .nan
    else
      match splitOnExp s1 with
      | (mant, expPart) =>
        match splitDot mant with
        | (ip, fp) =>
          let mantOk :=
            match fp with
            | none => validDigitPart ip
            | some f =>
              (ip.isEmpty || validDigitPart ip) && (f.isEmpty || validDigitPart f)
                && !(ip.isEmpty && f.isEmpty)
          if !mantOk then none
          else
            let fd := match fp with | none => [] | some f => stripUnd f
            let mantNat := digitsToNat (stripUnd ip ++ fd)
            match expPart with
            | none =>
              let num : Int := if neg then -(Int.ofNat mantNat) else Int.ofNat mantNat
              some (.fin (mkRat num ((10 : Nat) ^ fd.length)))
            | some es =>
              match splitSign es with
              | (eneg, es1) =>
                if validDigitPart es1 then
                  let e := digitsToNat (stripUnd es1)
                  let mNat := if eneg then mantNat else mantNat * (10 : Nat) ^ e
                  let den := if eneg then (10 : Nat) ^ fd.length * (10 : Nat) ^ e
                             else (10 : Nat) ^ fd.length
                  let num : Int := if neg then -(Int.ofNat mNat) else Int.ofNat mNat
                  some (.fin (mkRat num den))
                else none

/-- A calendar date, day resolution, as produced by pandas to_datetime on a
YYYY-MM-DD string. -/
structure Date where
  year : Nat
  month : Nat
  day : Nat
deriving DecidableEq, Repr

/-- Gregorian leap year test. -/
def isLeap (y : Nat) : Bool := y % 4 == 0 && (y % 100 != 0 || y % 400 == 0)

/-- Number of days of a month. -/
def daysInMonth (y m : Nat) : Nat :=
  if m == 2 then (if isLeap y then 29 else 28)
  else if m == 4 || m == 6 || m == 9 || m == 11 then 30
  else 31

/-- Lexicographic order on (year, month, day) triples. -/
def dateTripleLE (a b : Nat × Nat × Nat) : Bool :=
  a.1 < b.1 || (a.1 == b.1 && (a.2.1 < b.2.1 || (a.2.1 == b.2.1 && a.2.2 ≤ b.2.2)))

/-- Model of pandas to_datetime on the string YYYY-MM-DD built by the parser:
succeeds exactly for valid Gregorian calendar dates that a pandas Timestamp
can represent at midnight (between 1677-09-22 and 2262-04-11); raises
(returns none) otherwise. -/
def pdToDatetime (y m d : Nat) : Option Date :=
  if 1 ≤ m && m ≤ 12 && 1 ≤ d && d ≤ daysInMonth y m
      && dateTripleLE (1677, 9, 22) (y, m, d) && dateTripleLE (y, m, d) (2262, 4, 11)
  then some ⟨y, m, d⟩ else none

/-- Attempt to match the regex (dd)/(dd)/(dddd) at the head of the string;
returns (day, month, year) group values on success. -/
def matchDateAt : Str → Option (Nat × Nat × Nat)
  | d1 :: d2 :: '/' :: m1 :: m2 :: '/' :: y1 :: y2 :: y3 :: y4 :: _ =>
    if d1.isDigit && d2.isDigit && m1.isDigit && m2.isDigit
        && y1.isDigit && y2.isDigit && y3.isDigit && y4.isDigit then
      some (10 * digitVal d1 + digitVal d2,
            10 * digitVal m1 + digitVal m2,
            1000 * digitVal y1 + 100 * digitVal y2 + 10 * digitVal y3 + digitVal y4)
    else none
  | _ => none

/-- Model of re.search with the pattern (dd)/(dd)/(dddd): leftmost match. -/
def searchDate : Str → Option (Nat × Nat × Nat)
  | [] => none
  | c :: t =>
    match matchDateAt (c :: t) with
    | some v => some v
    | none => searchDate t

/-- The marker token of a block date header line. -/
def journTok : Str := ("Journ").toList

/-- The column header token that opens a data section. -/
def heuresTok : Str := ("Heures").toList

/-- Python line.split(tab). -/
def splitTab (s : Str) : List Str := pySplit '\t' s

/-- One row of the consolidated table, columns in output order:
date first, then Heures, PrévisionJ-1, PrévisionJ, Consommation. -/
structure Row where
  date : Date
  heures : Str
  previsionJ1 : PyFloat
  previsionJ : PyFloat
  consommation : PyFloat
deriving DecidableEq, Repr

/-- Attach a block date to the per line data of process_block. -/
def mkRow (d : Date) (t : Str × PyFloat × PyFloat × PyFloat) : Row :=
  ⟨d, t.1, t.2.1, t.2.2.1, t.2.2.2⟩

/-- The per line body of the loop of process_block (src/main.py lines 92 to
103): split on tab; with at least 4 parts, strip part 0 as the time label and
convert parts 1 to 3 with float(); any failure yields none (the row is
skipped). -/
def parseDataLine (line : Str) : Option (Str × PyFloat × PyFloat × PyFloat) :=
  match splitTab line with
  | p0 :: p1 :: p2 :: p3 :: _ =>
    match pyFloatParse (pyStrip p1), pyFloatParse (pyStrip p2), pyFloatParse (pyStrip p3) with
    | some a, some b, some c => some (pyStrip p0, a, b, c)
    | _, _, _ => none
  | _ => none

/-- process_block (src/main.py lines 77 to 112): none for an empty line list,
none when no line parses, else the parsed rows tagged with the block date. -/
def process_block (block_lines : List Str) (current_date : Date) : Option (List Row) :=
  if block_lines.isEmpty then none
  else
    let data_rows := block_lines.filterMap parseDataLine
    if data_rows.isEmpty then none
    else some (data_rows.map (mkRow current_date))

/-- The rows a block contributes to the output (empty when process_block
returns none). -/
def blockTable (block_lines : List Str) (d : Date) : List Row :=
  (process_block block_lines d).getD []

/-- The loop state of read_rte_file: emitted blocks, current date, accumulated
candidate lines, and the within-data-section flag. -/
structure ParseState where
  all_dfs : List (List Row)
  current_date : Option Date
  current_block_lines : List Str
  in_data_block : Bool
deriving DecidableEq, Repr

/-- The error raised by pandas to_datetime on an invalid calendar date. -/
inductive PdError where
  | invalidDate (y m d : Nat)
deriving DecidableEq, Repr

/-- The process-previous-block snippet of read_rte_file (src/main.py lines 33
to 36 and 59 to 62): when lines were accumulated and a date is set, process
the block and append the result when it is not none. -/
def flushDfs (st : ParseState) : List (List Row) :=
  match st.current_date with
  | some d =>
    if st.current_block_lines.isEmpty then st.all_dfs
    else
      match process_block st.current_block_lines d with
      | some df => st.all_dfs ++ [df]
      | none => st.all_dfs
  | none => st.all_dfs

/-- One iteration of the line loop of read_rte_file (src/main.py lines 24 to
56).  A line containing the marker token and a slash processes the previous
block, then resets the state only when the date regex matches; an invalid
calendar date raises.  A line starting with the column header token opens the
data section and clears the accumulator.  Other lines are accumulated when
within a data section with a date set. -/
def readStep (st : ParseState) (raw : Str) : Except PdError ParseState :=
  let line := pyStrip raw
  if line.isEmpty then .ok st
  else if hasSubstr journTok line && line.contains '/' then
    let dfs := flushDfs st
    match searchDate line with
    | some (day, month, year) =>
      match pdToDatetime year month day with
      | some dt => .ok ⟨dfs, some dt, [], false⟩
      | none => .error (.invalidDate year month day)
    | none => .ok ⟨dfs, st.current_date, st.current_block_lines, st.in_data_block⟩
  else if heuresTok.isPrefixOf line then
    .ok ⟨st.all_dfs, st.current_date, [], true⟩
  else if st.in_data_block && st.current_date.isSome then
    .ok ⟨st.all_dfs, st.current_date, st.current_block_lines ++ [line], st.in_data_block⟩
  else .ok st

/-- Run the line loop over the whole file. -/
def readFold (st : ParseState) : List Str → Except PdError ParseState
  | [] => .ok st
  | l :: ls =>
    match readStep st l with
    | .ok st2 => readFold st2 ls
    | .error e => .error e

/-- read_rte_file (src/main.py lines 5 to 74) on the list of lines of the
file: run the loop, process the last block, and concatenate all emitted
blocks (an empty dataframe when none was emitted). -/
def read_rte_file (lines : List Str) : Except PdError (List Row) :=
  match readFold ⟨[], none, [], false⟩ lines with
  | .ok st => .ok (flushDfs st).flatten
  | .error e => .error e

/-- State of the block grouping described by the spec: collected blocks with
their dates, plus the same in-progress components as the code. -/
structure SpecState where
  blocks : List (Date × List Str)
  curDate : Option Date
  curLines : List Str
  inData : Bool
deriving DecidableEq, Repr

/-- Emit the pending block when it has accumulated rows (spec section 4.2
step 2). -/
def specEmit (st : SpecState) : List (Date × List Str) :=
  match st.curDate with
  | some d => if st.curLines.isEmpty then st.blocks else st.blocks ++ [(d, st.curLines)]
  | none => st.blocks

/-- Modelled from the spec (section 4.2): one step of the block grouping.  A
block date header is a line containing the marker token and a DD/MM/YYYY date
substring; such a line emits the pending block and resets the accumulator and
the data-section flag.  The spec leaves a header whose date is not a valid
calendar date unspecified; here such a line is inert, which is only used under
hypotheses that exclude it.  The spec also lists Hours as an alternative
column header token; the code only recognises Heures, which is used here. -/
def specStep (st : SpecState) (raw : Str) : SpecState :=
  let line := pyStrip raw
  if line.isEmpty then st
  else if hasSubstr journTok line && (searchDate line).isSome then
    match searchDate line with
    | some (day, month, year) =>
      match pdToDatetime year month day with
      | some dt => ⟨specEmit st, some dt, [], false⟩
      | none => st
    | none => st
  else if heuresTok.isPrefixOf line then
    ⟨st.blocks, st.curDate, [], true⟩
  else if st.inData && st.curDate.isSome then
    ⟨st.blocks, st.curDate, st.curLines ++ [line], st.inData⟩
  else st

/-- Modelled from the spec: the blocks of a file, in order of appearance. -/
def specBlocks (lines : List Str) : List (Date × List Str) :=
  specEmit (lines.foldl specStep ⟨[], none, [], false⟩)

/-- Modelled from the spec: the consolidated table, the concatenation over all
blocks of their valid rows in line order, each row tagged with the block
date. -/
def specTable (lines : List Str) : List Row :=
  (specBlocks lines).flatMap fun p => (p.2.filterMap parseDataLine).map (mkRow p.1)

/-- The dataframes of a list of spec level blocks, as process_block emits
them. -/
def blocksToDfs (bs : List (Date × List Str)) : List (List Row) :=
  bs.filterMap fun p => process_block p.2 p.1

/-- A line is good when, if it would be treated as a date header line by the
code (marker token and a slash), its date substring matches and is a valid
calendar date. -/
def goodLine (l : Str) : Prop :=
  (hasSubstr journTok (pyStrip l) && (pyStrip l).contains '/') = true →
  (match searchDate (pyStrip l) with
   | some (day, month, year) => (pdToDatetime year month day).isSome
   | none => false) = true

instance (l : Str) : Decidable (goodLine l) := by
  unfold goodLine
  infer_instance

/-- The simulation relation between the code state of read_rte_file and the
spec level grouping state: same in-progress components, and the emitted
dataframes are exactly the processed spec blocks. -/
def RelCS (c : ParseState) (s : SpecState) : Prop :=
  c.all_dfs = blocksToDfs s.blocks ∧ c.current_date = s.curDate ∧
  c.current_block_lines = s.curLines ∧ c.in_data_block = s.inData

/-- A resource descriptor of the dataset info JSON: resource.get("url")
yields none when the url field is absent. -/
structure Resource where
  url : Option Str
deriving DecidableEq, Repr

/-- The dataset info JSON: infos.get("resources", default) yields the default
when the resources field is absent. -/
structure DatasetInfos where
  resources : Option (List Resource)
deriving DecidableEq, Repr

/-- The DataGouvFrScrapper object state (src/scrap.py lines 7 to 14). -/
structure Scrapper where
  dataset_id : Str
  timeout : Nat
  max_retries : Nat
  sleep_between_retries : ℚ
  infos : Option DatasetInfos
  resources : List Resource
deriving DecidableEq, Repr

/-- Errors escaping the scrapper methods: the max retries Exception of the
info fetch, and the AttributeError of calling split on a missing url. -/
inductive ScrapErr where
  | retriesExhausted
  | attrError
deriving DecidableEq, Repr

/-- Network side effects performed by a call: number of issued requests and of
sleeps between attempts. -/
structure NetTrace where
  requests : Nat
  sleeps : Nat
deriving DecidableEq, Repr

/-- The retry loop shared by _fetch_dataset_infos (src/scrap.py lines 26 to
37) and download_resources (lines 67 to 78): while attempt < max_retries, run
one attempt (the oracle gives the outcome of attempt number i); on success
stop; on failure increment and sleep when attempts remain.  Fuel counts the
remaining iterations, max_retries - attempt; the returned pair carries the
result and the (requests, sleeps) trace. -/
def retryLoopAux (oracle : Nat → Option α) (maxR : Nat) : Nat → Nat → Option α × NetTrace
  | 0, _ => (none, ⟨0, 0⟩)
  | fuel + 1, attempt =>
    match oracle attempt with
    | some v => (some v, ⟨1, 0⟩)
    | none =>
      match retryLoopAux oracle maxR fuel (attempt + 1) with
      | (r, tr) => (r, ⟨tr.requests + 1, tr.sleeps + (if attempt + 1 < maxR then 1 else 0)⟩)

/-- The retry loop started at attempt 0. -/
def retryLoop (oracle : Nat → Option α) (maxR : Nat) : Option α × NetTrace :=
  retryLoopAux oracle maxR maxR 0

/-- _fetch_dataset_infos (src/scrap.py lines 19 to 37): return at once when
not forced and a cached info exists; otherwise run the retry loop, caching the
body on success and raising after the last failure. -/
def fetch_dataset_infos (st : Scrapper) (force : Bool)
    (oracle : Nat → Option DatasetInfos) : Except ScrapErr Scrapper × NetTrace :=
  if !force && st.infos.isSome then (.ok st, ⟨0, 0⟩)
  else
    match retryLoop oracle st.max_retries with
    | (some j, tr) => (.ok { st with infos := some j }, tr)
    | (none, tr) => (.error .retriesExhausted, tr)

/-- fetch_resources (src/scrap.py lines 39 to 47): return the cached list
when not forced and nonempty; fetch the infos only when none are cached; then
recompute the resource list from the cached infos. -/
def fetch_resources (st : Scrapper) (force : Bool)
    (oracle : Nat → Option DatasetInfos) :
    Except ScrapErr (List Resource × Scrapper) × NetTrace :=
  if !force && !st.resources.isEmpty then (.ok (st.resources, st), ⟨0, 0⟩)
  else
    match (if st.infos.isNone then fetch_dataset_infos st false oracle else (.ok st, ⟨0, 0⟩)) with
    | (.ok st2, tr) =>
      match st2.infos with
      | some j =>
        let rs := j.resources.getD []
        (.ok (rs, { st2 with resources := rs }), tr)
      | none => (.error .attrError, tr)
    | (.error e, tr) => (.error e, tr)

/-- What happened to one resource inside the download loop. -/
inductive DlEvent where
  | filtered
  | existsSkip
  | ok (requests : Nat)
  | failed (requests : Nat)
deriving DecidableEq, Repr

/-- Requests issued for a resource: none for a filtered or skipped one. -/
def DlEvent.requests : DlEvent → Nat
  | .filtered => 0
  | .existsSkip => 0
  | .ok q => q
  | .failed q => q

/-- The Python test `filter and not filter(url)` negated: true when no filter
is given or the filter accepts the url. -/
def filterPass (filt : Option (Option Str → Bool)) (u : Option Str) : Bool :=
  match filt with
  | some f => f u
  | none => true

/-- os.path.join for the two-argument use of the code. -/
def joinPath (dir name : Str) : Str :=
  match name with
  | '/' :: _ => name
  | _ =>
    if dir.isEmpty then name
    else if dir.getLastD ' ' == '/' then dir ++ name
    else dir ++ '/' :: name

/-- The last segment of url.split sep slash, the derived file name. -/
def lastSeg (url : Str) : Str := (pySplit '/' url).getLastD []

/-- The body of the per resource loop of download_resources (src/scrap.py
lines 53 to 80): skip a filtered url; derive the file name (AttributeError
when the url is missing); skip when the file exists; otherwise run the retry
loop, adding the file on success, and only log when retries are exhausted.
The oracle gives the outcome of download attempt number i for this
resource. -/
def download_one (maxR : Nat) (filt : Option (Option Str → Bool)) (dpath : Str)
    (oracle : Nat → Option Unit) (fs : List Str) (r : Resource) :
    Except ScrapErr (List Str × DlEvent) :=
  if !filterPass filt r.url then .ok (fs, .filtered)
  else
    match r.url with
    | none => .error .attrError
    | some url =>
      let filename := joinPath dpath (lastSeg url)
      if fs.contains filename then .ok (fs, .existsSkip)
      else
        match retryLoop oracle maxR with
        | (some _, tr) => .ok (filename :: fs, .ok tr.requests)
        | (none, tr) => .ok (fs, .failed tr.requests)

/-- The per resource loop of download_resources, resource index i threaded to
the download oracle; collects the per resource events in order. -/
def downloadList (maxR : Nat) (filt : Option (Option Str → Bool)) (dpath : Str)
    (dlOracle : Nat → Nat → Option Unit) :
    List Resource → Nat → List Str → Except ScrapErr (List Str × List DlEvent)
  | [], _, fs => .ok (fs, [])
  | r :: rest, i, fs =>
    match download_one maxR filt dpath (dlOracle i) fs r with
    | .ok (fs2, ev) =>
      match downloadList maxR filt dpath dlOracle rest (i + 1) fs2 with
      | .ok (fs3, evs) => .ok (fs3, ev :: evs)
      | .error e => .error e
    | .error e => .error e

/-- download_resources (src/scrap.py lines 49 to 80): fetch the resource list
(forwarding force), then process every resource in order.  The unconditional
os.makedirs call only touches the directory tree and is not modelled.  The
returned trace counts the info fetch requests; download requests are carried
per resource by the events. -/
def download_resources (st : Scrapper) (fetchOracle : Nat → Option DatasetInfos)
    (dlOracle : Nat → Nat → Option Unit) (fs : List Str) (dpath : Str)
    (force : Bool) (filt : Option (Option Str → Bool)) :
    Except ScrapErr (Scrapper × List Str × List DlEvent) × NetTrace :=
  match fetch_resources st force fetchOracle with
  | (.ok (resources, st2), tr) =>
    match downloadList st.max_retries filt dpath dlOracle resources 0 fs with
    | .ok (fs2, evs) => (.ok (st2, fs2, evs), tr)
    | .error e => (.error e, tr)
  | (.error e, tr) => (.error e, tr)

example : pyFloatParse (("1000.5").toList) = some (.fin (mkRat 2001 2)) := by decide
example : pyFloatParse (("  -1_0e-1 ").toList) = some (.fin (mkRat (-1) 1)) := by decide
example : pyFloatParse (("1..2").toList) = none := by decide
example : pyFloatParse (("Inf").toList) = some (.inf false) := by decide
example : pyFloatParse (("").toList) = none := by decide
example : pyFloatParse ((".5").toList) = some (.fin (mkRat 1 2)) := by decide
example : pyFloatParse (("5.").toList) = some (.fin (mkRat 5 1)) := by decide
example : pyFloatParse (("1 2").toList) = none := by decide
example : searchDate (("abc 12/05/2025 x").toList) = some (12, 5, 2025) := by decide
example : searchDate (("123/45/6789").toList) = some (23, 45, 6789) := by decide
example : searchDate (("Journ x/y").toList) = none := by decide
example : pdToDatetime 2025 2 31 = none := by decide
example : pdToDatetime 2025 1 5 = some ⟨2025, 1, 5⟩ := by decide
example : hasSubstr (("Journ").toList) (("Journée du 05/01/2025").toList) = true := by decide

/-- C1: a line accumulated inside a data block contributes exactly one output
row if and only if splitting on tab yields at least 4 fields and fields 2 to 4
parse as decimal numbers; failing lines are dropped without raising — within a
block the emitted rows are exactly the per line parses, in order. -/
theorem c1_row_acceptance :
    (∀ line : Str, (parseDataLine line).isSome ↔
      ∃ p0 p1 p2 p3 rest, splitTab line = p0 :: p1 :: p2 :: p3 :: rest ∧
        (pyFloatParse (pyStrip p1)).isSome ∧ (pyFloatParse (pyStrip p2)).isSome ∧
        (pyFloatParse (pyStrip p3)).isSome)
    ∧ ∀ (bls : List Str) (d : Date),
        blockTable bls d = bls.filterMap fun l => (parseDataLine l).map (mkRow d) := by
  constructor
  · intro line
    constructor
    · intro h
      unfold parseDataLine at h
      rcases hs : splitTab line with _ | ⟨p0, _ | ⟨p1, _ | ⟨p2, _ | ⟨p3, rest⟩⟩⟩⟩ <;>
          rw [hs] at h <;> try simp at h
      rcases ha : pyFloatParse (pyStrip p1) with _ | a <;>
        rcases hb : pyFloatParse (pyStrip p2) with _ | b <;>
          rcases hc : pyFloatParse (pyStrip p3) with _ | c <;>
            rw [ha, hb, hc] at h <;> try simp at h
      exact ⟨p0, p1, p2, p3, rest, rfl, by simp [ha], by simp [hb], by simp [hc]⟩
    · rintro ⟨p0, p1, p2, p3, rest, hs, h1, h2, h3⟩
      unfold parseDataLine
      rw [hs]
      rcases ha : pyFloatParse (pyStrip p1) with _ | a
      · rw [ha] at h1; simp at h1
      rcases hb : pyFloatParse (pyStrip p2) with _ | b
      · rw [hb] at h2; simp at h2
      rcases hc : pyFloatParse (pyStrip p3) with _ | c
      · rw [hc] at h3; simp at h3
      simp [ha, hb, hc]
  · intro bls d
    unfold blockTable process_block
    by_cases hb : bls.isEmpty
    · rw [List.isEmpty_iff] at hb
      simp [hb]
    · rw [← List.map_filterMap]
      simp only [hb, if_false]
      by_cases hd : (bls.filterMap parseDataLine).isEmpty
      · rw [List.isEmpty_iff] at hd
        simp [hd]
      · simp [hd]

/-- C5 counterexample: the time label is not kept verbatim.  On the line
00:00-space-tab-1-tab-2-tab-3 the first tab separated field is the six
characters 00:00-space, but the emitted row carries the five character label
00:00: the code strips the field. -/
theorem c5_cex_label_not_verbatim :
    (splitTab (("00:00 \t1\t2\t3").toList)).headD [] = ("00:00 ").toList ∧
    parseDataLine (("00:00 \t1\t2\t3").toList) =
      some ((("00:00").toList), .fin (mkRat 1 1), .fin (mkRat 2 1), .fin (mkRat 3 1)) ∧
    ("00:00").toList ≠ ("00:00 ").toList := by decide

/-- C5 (amended): for every accepted data row the output row carries the
block date as the leading column, the first field stripped of surrounding
whitespace (not verbatim) as the time label, and the three numeric fields
equal to their parsed decimal values. -/
theorem c5_row_content (d : Date) (line p0 p1 p2 p3 : Str) (rest : List Str)
    (a b c : PyFloat)
    (hs : splitTab line = p0 :: p1 :: p2 :: p3 :: rest)
    (ha : pyFloatParse (pyStrip p1) = some a)
    (hb : pyFloatParse (pyStrip p2) = some b)
    (hc : pyFloatParse (pyStrip p3) = some c) :
    (parseDataLine line).map (mkRow d) = some ⟨d, pyStrip p0, a, b, c⟩ := by
  simp only [parseDataLine, hs, ha, hb, hc]
  rfl

/-- Witness for C5 on the example of the spec: the block of 2025-01-05 with
the row 00:00 tab 1000.5 tab 1020.0 tab 990.2. -/
theorem c5_row_content_witness :
    (parseDataLine (("00:00\t1000.5\t1020.0\t990.2").toList)).map (mkRow ⟨2025, 1, 5⟩) =
      some ⟨⟨2025, 1, 5⟩, ("00:00").toList, .fin (mkRat 2001 2), .fin (mkRat 1020 1),
        .fin (mkRat 4951 5)⟩ :=
  c5_row_content ⟨2025, 1, 5⟩ (("00:00\t1000.5\t1020.0\t990.2").toList)
    (("00:00").toList) (("1000.5").toList) (("1020.0").toList) (("990.2").toList) []
    (.fin (mkRat 2001 2)) (.fin (mkRat 1020 1)) (.fin (mkRat 4951 5))
    (by decide) (by decide) (by decide) (by decide)

/-- C9: fields beyond the fourth are discarded: the parse of a data line only
depends on the first 4 tab separated fields, so two lines with at least 4
fields that agree on those fields are accepted alike and produce the same
output. -/
theorem c9_extra_fields (l1 l2 : Str)
    (h4a : 4 ≤ (splitTab l1).length) (h4b : 4 ≤ (splitTab l2).length)
    (he : (splitTab l1).take 4 = (splitTab l2).take 4) :
    parseDataLine l1 = parseDataLine l2 := by
  unfold parseDataLine
  rcases hs1 : splitTab l1 with _ | ⟨a1, _ | ⟨b1, _ | ⟨c1, _ | ⟨d1, r1⟩⟩⟩⟩ <;>
      rw [hs1] at h4a he <;> try simp at h4a
  rcases hs2 : splitTab l2 with _ | ⟨a2, _ | ⟨b2, _ | ⟨c2, _ | ⟨d2, r2⟩⟩⟩⟩ <;>
      rw [hs2] at h4b he <;> try simp at h4b
  simp only [List.take, List.cons.injEq] at he
  obtain ⟨e1, e2, e3, e4, _⟩ := he
  rw [e1, e2, e3, e4]

/-- Witness for C9: a line with two extra fields parses identically to its
first four fields. -/
theorem c9_extra_fields_witness :
    parseDataLine (("a\t1\t2\t3").toList) = parseDataLine (("a\t1\t2\t3\t9\t9").toList) :=
  c9_extra_fields (("a\t1\t2\t3").toList) (("a\t1\t2\t3\t9\t9").toList)
    (by decide) (by decide) (by decide)

/-- When every attempt in the remaining window fails, the retry loop performs
all remaining attempts, sleeping after each failure except the last. -/
theorem retryLoopAux_allFail {α : Type} (oracle : Nat → Option α) (maxR : Nat) :
    ∀ fuel attempt, attempt + fuel = maxR →
    (∀ i, attempt ≤ i → i < maxR → oracle i = none) →
    retryLoopAux oracle maxR fuel attempt = (none, ⟨fuel, fuel - 1⟩) := by
  intro fuel
  induction fuel with
  | zero => intro attempt h1 h2; rfl
  | succ n ih =>
    intro attempt h1 h2
    have ho : oracle attempt = none := h2 attempt le_rfl (by omega)
    simp only [retryLoopAux, ho]
    rw [ih (attempt + 1) (by omega) (fun i hi1 hi2 => h2 i (by omega) hi2)]
    by_cases hlt : attempt + 1 < maxR
    · simp only [hlt, if_true]
      have hn : 1 ≤ n := by omega
      simp [NetTrace.mk.injEq]
      try omega
    · simp only [hlt, if_false]
      have hn : n = 0 := by omega
      simp [hn]

/-- When the first success is at attempt k inside the window, the retry loop
stops there, having issued one request per attempt and slept after each
failure. -/
theorem retryLoopAux_firstSuccess {α : Type} (oracle : Nat → Option α) (maxR : Nat) (j : α) :
    ∀ fuel attempt k, attempt + fuel = maxR → attempt ≤ k → k < maxR →
    (∀ i, attempt ≤ i → i < k → oracle i = none) → oracle k = some j →
    retryLoopAux oracle maxR fuel attempt = (some j, ⟨k + 1 - attempt, k - attempt⟩) := by
  intro fuel
  induction fuel with
  | zero => intro attempt k h1 h2 h3 h4 h5; omega
  | succ n ih =>
    intro attempt k h1 h2 h3 h4 h5
    by_cases hak : attempt = k
    · subst hak
      simp only [retryLoopAux, h5]
      simp [NetTrace.mk.injEq]
      try omega
    · have ho : oracle attempt = none := h4 attempt le_rfl (by omega)
      simp only [retryLoopAux, ho]
      rw [ih (attempt + 1) k (by omega) (by omega) h3 (fun i hi1 hi2 => h4 i (by omega) hi2) h5]
      have hlt : attempt + 1 < maxR := by omega
      simp only [hlt, if_true]
      simp [NetTrace.mk.injEq]
      try omega

/-- C6: subject to the cache guard (forced, or no cached info),
fetch_dataset_infos retries on every failed attempt up to max_retries,
sleeping between consecutive attempts but not after the last, and raises the
retries exhausted error exactly when all attempts fail; at the first
successful attempt it returns at once and caches the body. -/
theorem c6_fetch_retry (st : Scrapper) (force : Bool) (oracle : Nat → Option DatasetInfos)
    (hcache : force = true ∨ st.infos = none) :
    ((∀ i, i < st.max_retries → oracle i = none) →
      fetch_dataset_infos st force oracle =
        (.error .retriesExhausted, ⟨st.max_retries, st.max_retries - 1⟩))
    ∧ (∀ k j, k < st.max_retries → (∀ i, i < k → oracle i = none) → oracle k = some j →
      fetch_dataset_infos st force oracle = (.ok { st with infos := some j }, ⟨k + 1, k⟩)) := by
  have hguard : (!force && st.infos.isSome) = false := by
    rcases hcache with h | h <;> simp [h]
  constructor
  · intro hall
    unfold fetch_dataset_infos retryLoop
    rw [hguard]
    rw [retryLoopAux_allFail oracle st.max_retries st.max_retries 0 (by omega)
      (fun i _ h2 => hall i h2)]
    rfl
  · intro k j hk hbefore hsucc
    unfold fetch_dataset_infos retryLoop
    rw [hguard]
    rw [retryLoopAux_firstSuccess oracle st.max_retries j st.max_retries 0 k (by omega)
      (Nat.zero_le k) hk (fun i _ h2 => hbefore i h2) hsucc]
    simp

/-- Witness for C6: with 3 allowed attempts, a network that always fails
yields the retries exhausted error after 3 requests and 2 sleeps, and a
network that succeeds at the second attempt yields the cached body after 2
requests and 1 sleep. -/
theorem c6_fetch_retry_witness :
    fetch_dataset_infos ⟨("id").toList, 5, 3, 1, none, []⟩ false (fun _ => none) =
      (.error .retriesExhausted, ⟨3, 2⟩) ∧
    fetch_dataset_infos ⟨("id").toList, 5, 3, 1, none, []⟩ false
        (fun i => if i = 1 then some ⟨none⟩ else none) =
      (.ok ⟨("id").toList, 5, 3, 1, some ⟨none⟩, []⟩, ⟨2, 1⟩) :=
  ⟨(c6_fetch_retry _ _ _ (Or.inr rfl)).1 (fun _ _ => rfl),
   (c6_fetch_retry _ _ _ (Or.inr rfl)).2 1 ⟨none⟩ (by decide)
     (fun i hi => by interval_cases i; rfl) (by decide)⟩

/-- C7 counterexample: with the force flag set but a dataset descriptor
already cached (and even a nonempty cached resource list), fetch_resources
issues zero requests — no fresh dataset info fetch is performed; the list is
recomputed from the cached descriptor. -/
theorem c7_cex_force_no_refetch :
    fetch_resources ⟨("id").toList, 5, 3, 1, some ⟨some [⟨some (("http://h/a.csv").toList)⟩]⟩,
        [⟨some (("x").toList)⟩]⟩ true (fun _ => none) =
      (.ok ([⟨some (("http://h/a.csv").toList)⟩],
        ⟨("id").toList, 5, 3, 1, some ⟨some [⟨some (("http://h/a.csv").toList)⟩]⟩,
          [⟨some (("http://h/a.csv").toList)⟩]⟩), ⟨0, 0⟩) := rfl

/-- C7 (amended): the force flag bypasses the resource list cache and
recomputes the list from the dataset descriptor, but a fresh dataset info
fetch is issued only when no descriptor is cached; with a cached descriptor
the call performs zero requests. -/
theorem c7_force_semantics (oracle : Nat → Option DatasetInfos) :
    (∀ st j, st.infos = some j →
      fetch_resources st true oracle =
        (.ok (j.resources.getD [], { st with resources := j.resources.getD [] }), ⟨0, 0⟩))
    ∧ (∀ st j, st.infos = none → 0 < st.max_retries → oracle 0 = some j →
      fetch_resources st true oracle =
        (.ok (j.resources.getD [],
          { st with infos := some j, resources := j.resources.getD [] }), ⟨1, 0⟩)) := by
  constructor
  · intro st j h
    unfold fetch_resources
    simp [h]
  · intro st j h hmr h0
    unfold fetch_resources fetch_dataset_infos retryLoop
    rw [retryLoopAux_firstSuccess oracle st.max_retries j st.max_retries 0 0 (by omega)
      le_rfl hmr (fun i hi1 hi2 => by omega) h0]
    simp [h]

/-- Witness for C7: with a cached descriptor lacking resources, force yields
an empty list and zero requests; with no cached descriptor, force triggers
one fetch request. -/
theorem c7_force_semantics_witness :
    fetch_resources ⟨("id").toList, 5, 3, 1, some ⟨none⟩, [⟨some (("x").toList)⟩]⟩ true
        (fun _ => some ⟨none⟩) =
      (.ok ([], ⟨("id").toList, 5, 3, 1, some ⟨none⟩, []⟩), ⟨0, 0⟩) ∧
    fetch_resources ⟨("id").toList, 5, 3, 1, none, []⟩ true (fun _ => some ⟨none⟩) =
      (.ok ([], ⟨("id").toList, 5, 3, 1, some ⟨none⟩, []⟩), ⟨1, 0⟩) :=
  ⟨(c7_force_semantics _).1 _ ⟨none⟩ rfl,
   (c7_force_semantics _).2 _ ⟨none⟩ rfl (by decide) rfl⟩

/-- A resource with a url never makes download_one raise: it is filtered,
skipped, downloaded or given up on, always yielding an event. -/
theorem download_one_no_raise (maxR : Nat) (filt : Option (Option Str → Bool)) (dpath : Str)
    (oracle : Nat → Option Unit) (fs : List Str) (r : Resource)
    (h : (Resource.url r).isSome = true) :
    ∃ fs2 ev, download_one maxR filt dpath oracle fs r = .ok (fs2, ev) := by
  unfold download_one
  rcases hu : r.url with _ | url
  · rw [hu] at h; simp at h
  · by_cases hf : filterPass filt (some url) = false
    · exact ⟨fs, .filtered, by simp [hu, hf]⟩
    · by_cases hex : joinPath dpath (lastSeg url) ∈ fs
      · exact ⟨fs, .existsSkip, by simp [hu, hf, hex]⟩
      · rcases hrl : retryLoop oracle maxR with ⟨_ | u, tr⟩
        · exact ⟨fs, .failed tr.requests, by simp [hu, hf, hex, hrl]⟩
        · exact ⟨joinPath dpath (lastSeg url) :: fs, .ok tr.requests,
            by simp [hu, hf, hex, hrl]⟩

/-- C8: during download_resources no resource aborts the batch: with url
fields present the per resource loop always completes, producing one event
per resource in order; a resource whose derived filename is already on disk
is skipped with the exists event, which issues zero requests; a resource
whose every attempt fails produces the failed event after max_retries
requests, leaves the filesystem unchanged, and does not raise. -/
theorem c8_download_tolerance (maxR : Nat) (dpath : Str) (filt : Option (Option Str → Bool))
    (dlOracle : Nat → Nat → Option Unit) :
    (∀ resources i fs, (∀ r ∈ resources, (Resource.url r).isSome = true) →
      ∃ fs2 evs, downloadList maxR filt dpath dlOracle resources i fs = .ok (fs2, evs) ∧
        evs.length = resources.length)
    ∧ (∀ fs r url oracle, Resource.url r = some url → filterPass filt (Resource.url r) = true →
        fs.contains (joinPath dpath (lastSeg url)) = true →
        download_one maxR filt dpath oracle fs r = .ok (fs, .existsSkip) ∧
        DlEvent.requests .existsSkip = 0)
    ∧ (∀ fs r url oracle, Resource.url r = some url → filterPass filt (Resource.url r) = true →
        fs.contains (joinPath dpath (lastSeg url)) = false →
        (∀ a, a < maxR → oracle a = none) →
        download_one maxR filt dpath oracle fs r = .ok (fs, .failed maxR)) := by
  refine ⟨?_, ?_, ?_⟩
  · intro resources
    induction resources with
    | nil => intro i fs _; exact ⟨fs, [], rfl, rfl⟩
    | cons r rest ih =>
      intro i fs hall
      obtain ⟨fs2, ev, h1⟩ := download_one_no_raise maxR filt dpath (dlOracle i) fs r
        (hall r (List.mem_cons_self r rest))
      obtain ⟨fs3, evs, h2, hlen⟩ := ih (i + 1) fs2 (fun x hx => hall x (List.mem_cons_of_mem r hx))
      refine ⟨fs3, ev :: evs, ?_, by simp [hlen]⟩
      simp only [downloadList, h1, h2]
  · intro fs r url oracle hu hf hex
    rw [hu] at hf
    have hmem : joinPath dpath (lastSeg url) ∈ fs := by
      simpa using hex
    refine ⟨?_, rfl⟩
    unfold download_one
    rw [hu]
    simp [hf, hmem]
  · intro fs r url oracle hu hf hex hall
    rw [hu] at hf
    have hmem : ¬ joinPath dpath (lastSeg url) ∈ fs := by
      simpa using hex
    unfold download_one retryLoop
    rw [hu]
    rw [retryLoopAux_allFail oracle maxR maxR 0 (by omega) (fun a _ h2 => hall a h2)]
    simp [hf, hmem]

/-- Witness for C8: two resources, the first with its file on disk, the
second failing both attempts: the batch completes with one event each; the
on-disk skip and the exhausted failure are exhibited directly. -/
theorem c8_download_tolerance_witness :
    (∃ fs2 evs, downloadList 2 none (("d").toList) (fun _ _ => none)
        [⟨some (("u/a").toList)⟩, ⟨some (("u/b").toList)⟩] 0 [("d/a").toList] =
        .ok (fs2, evs) ∧ evs.length = 2)
    ∧ download_one 2 none (("d").toList) (fun _ => none) [("d/a").toList] ⟨some (("u/a").toList)⟩ =
        .ok ([("d/a").toList], .existsSkip)
    ∧ download_one 2 none (("d").toList) (fun _ => none) [] ⟨some (("u/b").toList)⟩ =
        .ok ([], .failed 2) :=
  ⟨(c8_download_tolerance 2 (("d").toList) none (fun _ _ => none)).1
      [⟨some (("u/a").toList)⟩, ⟨some (("u/b").toList)⟩] 0 [("d/a").toList] (by decide),
   ((c8_download_tolerance 2 (("d").toList) none (fun _ _ => none)).2.1
      [("d/a").toList] ⟨some (("u/a").toList)⟩ (("u/a").toList) (fun _ => none)
      rfl rfl (by decide)).1,
   (c8_download_tolerance 2 (("d").toList) none (fun _ _ => none)).2.2
      [] ⟨some (("u/b").toList)⟩ (("u/b").toList) (fun _ => none)
      rfl rfl (by decide) (fun _ _ => rfl)⟩

/-- C10: when the cached dataset descriptor has no resources field,
fetch_resources returns an empty list without raising and without any
request, and download_resources performs no downloads (empty event list,
filesystem unchanged) and returns normally. -/
theorem c10_empty_resources (st : Scrapper) (j : DatasetInfos) (dpath : Str)
    (fetchOracle : Nat → Option DatasetInfos) (dlOracle : Nat → Nat → Option Unit)
    (fs : List Str) (h1 : st.infos = some j) (h2 : j.resources = none)
    (h3 : st.resources = []) :
    fetch_resources st false fetchOracle = (.ok ([], { st with resources := [] }), ⟨0, 0⟩)
    ∧ download_resources st fetchOracle dlOracle fs dpath false none =
      (.ok ({ st with resources := [] }, fs, []), ⟨0, 0⟩) := by
  have hfr : fetch_resources st false fetchOracle =
      (.ok ([], { st with resources := [] }), ⟨0, 0⟩) := by
    unfold fetch_resources
    simp [h1, h2, h3]
  refine ⟨hfr, ?_⟩
  unfold download_resources
  rw [hfr]
  rfl

/-- Witness for C10: a concrete scrapper whose cached descriptor lacks the
resources field. -/
theorem c10_empty_resources_witness :
    fetch_resources ⟨("id").toList, 5, 3, 1, some ⟨none⟩, []⟩ false (fun _ => none) =
      (.ok ([], ⟨("id").toList, 5, 3, 1, some ⟨none⟩, []⟩), ⟨0, 0⟩)
    ∧ download_resources ⟨("id").toList, 5, 3, 1, some ⟨none⟩, []⟩ (fun _ => none)
        (fun _ _ => none) [("f").toList] (("d").toList) false none =
      (.ok (⟨("id").toList, 5, 3, 1, some ⟨none⟩, []⟩, [("f").toList], []), ⟨0, 0⟩) :=
  c10_empty_resources ⟨("id").toList, 5, 3, 1, some ⟨none⟩, []⟩ ⟨none⟩ (("d").toList)
    (fun _ => none) (fun _ _ => none) [("f").toList] rfl rfl rfl

/-- A successful date match begins with two digits, a slash, and more: the
matched string contains a slash. -/
theorem matchDateAt_slash (l : Str) (v : Nat × Nat × Nat) (h : matchDateAt l = some v) :
    l.contains '/' = true := by
  unfold matchDateAt at h
  split at h
  · simp
  · simp at h

/-- A line on which the date regex matches contains a slash. -/
theorem searchDate_slash (l : Str) (v : Nat × Nat × Nat) (h : searchDate l = some v) :
    l.contains '/' = true := by
  induction l with
  | nil => simp [searchDate] at h
  | cons c t ih =>
    unfold searchDate at h
    rcases hm : matchDateAt (c :: t) with _ | w
    · rw [hm] at h
      have := ih h
      simp only [List.contains_cons, this, Bool.or_true]
    · rw [hm] at h
      exact matchDateAt_slash _ _ hm

/-- Under the simulation relation, flushing the code state emits exactly the
processed blocks of the spec state after emission. -/
theorem flushDfs_eq_specEmit (c : ParseState) (s : SpecState) (h : RelCS c s) :
    flushDfs c = blocksToDfs (specEmit s) := by
  obtain ⟨h1, h2, h3, h4⟩ := h
  unfold flushDfs specEmit
  rw [h1, h2, h3]
  rcases hd : s.curDate with _ | d
  · rfl
  · by_cases he : s.curLines.isEmpty = true
    · simp [he]
    · simp only [he, if_false, Bool.false_eq_true]
      unfold blocksToDfs
      rw [List.filterMap_append]
      rcases hp : process_block s.curLines d with _ | df <;> simp [hp]

/-- Step simulation, common case: the line is neither empty nor a date header
for either side; both steps agree on the column header and accumulation
branches. -/
theorem readStep_rel_common (c : ParseState) (s : SpecState) (l : Str)
    (he : ¬ (pyStrip l).isEmpty = true)
    (hcode : (hasSubstr journTok (pyStrip l) && (pyStrip l).contains '/') = false)
    (hspec : (hasSubstr journTok (pyStrip l) && (searchDate (pyStrip l)).isSome) = false)
    (h1 : c.all_dfs = blocksToDfs s.blocks) (h2 : c.current_date = s.curDate)
    (h3 : c.current_block_lines = s.curLines) (h4 : c.in_data_block = s.inData) :
    ∃ c2, readStep c l = .ok c2 ∧ RelCS c2 (specStep s l) := by
  by_cases hh : heuresTok.isPrefixOf (pyStrip l) = true
  · have hs2 : specStep s l = ⟨s.blocks, s.curDate, [], true⟩ := by
      unfold specStep
      rw [if_neg he, if_neg (by rw [hspec]; simp), if_pos hh]
    refine ⟨⟨c.all_dfs, c.current_date, [], true⟩, ?_, ?_⟩
    · unfold readStep
      rw [if_neg he, if_neg (by rw [hcode]; simp), if_pos hh]
    · rw [hs2]
      exact ⟨h1, h2, rfl, rfl⟩
  · by_cases hd : (c.in_data_block && c.current_date.isSome) = true
    · have hd2 : (s.inData && s.curDate.isSome) = true := by rw [← h4, ← h2]; exact hd
      have hs2 : specStep s l = ⟨s.blocks, s.curDate, s.curLines ++ [pyStrip l], s.inData⟩ := by
        unfold specStep
        rw [if_neg he, if_neg (by rw [hspec]; simp), if_neg hh, if_pos hd2]
      refine ⟨⟨c.all_dfs, c.current_date, c.current_block_lines ++ [pyStrip l],
        c.in_data_block⟩, ?_, ?_⟩
      · unfold readStep
        rw [if_neg he, if_neg (by rw [hcode]; simp), if_neg hh, if_pos hd]
      · rw [hs2]
        exact ⟨h1, h2, by rw [h3], h4⟩
    · have hd2 : ¬ (s.inData && s.curDate.isSome) = true := by rw [← h4, ← h2]; exact hd
      have hs2 : specStep s l = s := by
        unfold specStep
        rw [if_neg he, if_neg (by rw [hspec]; simp), if_neg hh, if_neg hd2]
      refine ⟨c, ?_, ?_⟩
      · unfold readStep
        rw [if_neg he, if_neg (by rw [hcode]; simp), if_neg hh, if_neg hd]
      · rw [hs2]
        exact ⟨h1, h2, h3, h4⟩

/-- Step simulation: on a good line the code step never raises and preserves
the simulation relation with the spec step. -/
theorem readStep_rel (c : ParseState) (s : SpecState) (l : Str)
    (hg : goodLine l) (h : RelCS c s) :
    ∃ c2, readStep c l = .ok c2 ∧ RelCS c2 (specStep s l) := by
  obtain ⟨h1, h2, h3, h4⟩ := h
  by_cases he : (pyStrip l).isEmpty = true
  · have hs2 : specStep s l = s := by
      unfold specStep
      rw [if_pos he]
    refine ⟨c, ?_, ?_⟩
    · unfold readStep
      rw [if_pos he]
    · rw [hs2]
      exact ⟨h1, h2, h3, h4⟩
  · by_cases hj : hasSubstr journTok (pyStrip l) = true
    · by_cases hsl : (pyStrip l).contains '/' = true
      · have hgood := hg (by rw [hj, hsl]; rfl)
        rcases hsd : searchDate (pyStrip l) with _ | ⟨day, month, year⟩
        · rw [hsd] at hgood
          simp at hgood
        · rw [hsd] at hgood
          have hgood2 : (pdToDatetime year month day).isSome = true := hgood
          rcases hpd : pdToDatetime year month day with _ | dt
          · rw [hpd] at hgood2
            simp at hgood2
          · have hs2 : specStep s l = ⟨specEmit s, some dt, [], false⟩ := by
              unfold specStep
              rw [if_neg he, if_pos (by rw [hj, hsd]; rfl)]
              simp only [hsd, hpd]
            refine ⟨⟨flushDfs c, some dt, [], false⟩, ?_, ?_⟩
            · unfold readStep
              rw [if_neg he, if_pos (by rw [hj, hsl]; rfl)]
              simp only [hsd, hpd]
            · rw [hs2]
              exact ⟨flushDfs_eq_specEmit c s ⟨h1, h2, h3, h4⟩, rfl, rfl, rfl⟩
      · have hsd : searchDate (pyStrip l) = none := by
          rcases hq : searchDate (pyStrip l) with _ | v
          · rfl
          · exact absurd (searchDate_slash _ _ hq) hsl
        refine readStep_rel_common c s l he ?_ ?_ h1 h2 h3 h4
        · rw [Bool.and_eq_false_iff]
          right
          exact Bool.not_eq_true _ |>.mp hsl
        · rw [Bool.and_eq_false_iff]
          right
          rw [hsd]
          rfl
    · have hjf : hasSubstr journTok (pyStrip l) = false := by
        rcases hb : hasSubstr journTok (pyStrip l)
        · rfl
        · exact absurd hb hj
      refine readStep_rel_common c s l he ?_ ?_ h1 h2 h3 h4
      · rw [Bool.and_eq_false_iff]; left; exact hjf
      · rw [Bool.and_eq_false_iff]; left; exact hjf

/-- Fold simulation: over a list of good lines the code loop never raises and
ends related to the spec fold. -/
theorem readFold_rel (ls : List Str) : ∀ (c : ParseState) (s : SpecState),
    (∀ l ∈ ls, goodLine l) → RelCS c s →
    ∃ c2, readFold c ls = .ok c2 ∧ RelCS c2 (List.foldl specStep s ls) := by
  induction ls with
  | nil => intro c s _ h; exact ⟨c, rfl, h⟩
  | cons l t ih =>
    intro c s hg h
    obtain ⟨c1, hstep, hrel1⟩ := readStep_rel c s l (hg l (List.mem_cons_self l t)) h
    obtain ⟨c2, hfold, hrel2⟩ := ih c1 (specStep s l)
      (fun x hx => hg x (List.mem_cons_of_mem l hx)) hrel1
    refine ⟨c2, ?_, by simpa using hrel2⟩
    unfold readFold
    rw [hstep]
    exact hfold

/-- Concatenating the processed blocks equals concatenating each block's
valid rows tagged with its date. -/
theorem blocksToDfs_flatten (bs : List (Date × List Str)) :
    (blocksToDfs bs).flatten =
      bs.flatMap fun p => (p.2.filterMap parseDataLine).map (mkRow p.1) := by
  induction bs with
  | nil => rfl
  | cons b t ih =>
    rcases b with ⟨d, ls⟩
    rcases hp : process_block ls d with _ | df
    · have hz : (ls.filterMap parseDataLine).map (mkRow d) = [] := by
        unfold process_block at hp
        by_cases hl : ls.isEmpty = true
        · rw [List.isEmpty_iff] at hl
          subst hl
          rfl
        · simp only [hl, if_false, Bool.false_eq_true] at hp
          by_cases hd2 : (ls.filterMap parseDataLine).isEmpty = true
          · rw [List.isEmpty_iff] at hd2
            rw [hd2]
            rfl
          · simp [hd2] at hp
      simp only [blocksToDfs, List.filterMap_cons, hp, List.flatMap_cons, hz,
        List.nil_append]
      exact ih
    · have hdf : df = (ls.filterMap parseDataLine).map (mkRow d) := by
        unfold process_block at hp
        by_cases hl : ls.isEmpty = true
        · simp [hl] at hp
        · simp only [hl, if_false, Bool.false_eq_true] at hp
          by_cases hd2 : (ls.filterMap parseDataLine).isEmpty = true
          · simp [hd2] at hp
          · simp only [hd2, if_false, Bool.false_eq_true, Option.some.injEq] at hp
            exact hp.symm
      simp only [blocksToDfs, List.filterMap_cons, hp, List.flatMap_cons,
        List.flatten_cons, hdf]
      exact congrArg (fun x => List.map (mkRow d) (List.filterMap parseDataLine ls) ++ x) ih

/-- C3 counterexample: a readable file whose only line is a date header with
the date substring 31/02/2025 — not a real calendar date — makes the parser
raise (the to_datetime error), refuting that only a missing or unreadable
file can raise. -/
theorem c3_cex_invalid_date_raises :
    read_rte_file [("Journée du 31/02/2025").toList] =
      .error (.invalidDate 2025 2 31) := rfl

/-- C3 (amended): for every readable input file in which every line that the
code treats as a date header (marker token plus slash) carries a date
substring that matches and is a valid calendar date, the parser returns a
table — possibly empty — and never raises; a header whose matched date
substring is not a real calendar date raises the to_datetime error, and a
missing or unreadable file raises an IOError (file opening is outside this
embedding). -/
theorem c3_no_raise (lines : List Str) (hg : ∀ l ∈ lines, goodLine l) :
    ∃ t, read_rte_file lines = .ok t := by
  obtain ⟨c2, hfold, _⟩ := readFold_rel lines ⟨[], none, [], false⟩ ⟨[], none, [], false⟩ hg
    ⟨rfl, rfl, rfl, rfl⟩
  unfold read_rte_file
  rw [hfold]
  exact ⟨_, rfl⟩

/-- Witness for C3: a well formed single block file parses to a table. -/
theorem c3_no_raise_witness :
    ∃ t, read_rte_file [("Journée du 05/01/2025").toList, ("Heures").toList,
      ("00:00\t1\t2\t3").toList] = .ok t :=
  c3_no_raise [("Journée du 05/01/2025").toList, ("Heures").toList,
    ("00:00\t1\t2\t3").toList] (by decide)

/-- C2 counterexample: in a file whose fourth line contains the marker token
and a slash but no date substring, the parser emits the accumulated block
twice: the output has 3 rows — the 00:00 row appears twice — while the blocks
of the file hold only 2 valid rows, refuting that the row count equals the
sum of valid rows over the blocks with each source line counted at most
once. -/
theorem c2_cex_row_counted_twice :
    read_rte_file [("Journée du 05/01/2025").toList, ("Heures").toList,
        ("00:00\t1\t2\t3").toList, ("Journ x/y").toList, ("00:30\t4\t5\t6").toList] =
      .ok [⟨⟨2025, 1, 5⟩, ("00:00").toList, .fin (mkRat 1 1), .fin (mkRat 2 1), .fin (mkRat 3 1)⟩,
        ⟨⟨2025, 1, 5⟩, ("00:00").toList, .fin (mkRat 1 1), .fin (mkRat 2 1), .fin (mkRat 3 1)⟩,
        ⟨⟨2025, 1, 5⟩, ("00:30").toList, .fin (mkRat 4 1), .fin (mkRat 5 1), .fin (mkRat 6 1)⟩]
    ∧ (specTable [("Journée du 05/01/2025").toList, ("Heures").toList,
        ("00:00\t1\t2\t3").toList, ("Journ x/y").toList, ("00:30\t4\t5\t6").toList]).length = 2 :=
  ⟨rfl, rfl⟩

/-- C2 (amended): for every input file in which every line the code treats as
a date header carries a valid matched date substring, the returned table is
exactly the concatenation, over the blocks of the file in order of
appearance, of each block's valid rows in line order — so the row count is
the sum of the per block valid row counts and each source data line
contributes at most one row.  Without that proviso a marker line lacking a
date substring makes the parser emit accumulated rows twice. -/
theorem c2_table_refinement (lines : List Str) (hg : ∀ l ∈ lines, goodLine l) :
    read_rte_file lines = .ok (specTable lines)
    ∧ (specTable lines).length =
      ((specBlocks lines).map fun p => (p.2.filterMap parseDataLine).length).sum := by
  constructor
  · obtain ⟨c2, hfold, hrel⟩ := readFold_rel lines ⟨[], none, [], false⟩ ⟨[], none, [], false⟩
      hg ⟨rfl, rfl, rfl, rfl⟩
    unfold read_rte_file
    rw [hfold]
    show Except.ok (flushDfs c2).flatten = Except.ok (specTable lines)
    rw [flushDfs_eq_specEmit c2 (List.foldl specStep ⟨[], none, [], false⟩ lines) hrel]
    unfold specTable specBlocks
    rw [blocksToDfs_flatten]
  · unfold specTable
    rw [List.flatMap_def, List.length_flatten, List.map_map]
    congr 1
    apply List.map_congr_left
    intro p _
    simp

/-- Witness for C2: on the single block example file the table equals the
spec level concatenation. -/
theorem c2_table_refinement_witness :
    read_rte_file [("Journée du 05/01/2025").toList, ("Heures").toList,
        ("00:00\t1000.5\t1020.0\t990.2").toList] =
      .ok (specTable [("Journée du 05/01/2025").toList, ("Heures").toList,
        ("00:00\t1000.5\t1020.0\t990.2").toList]) :=
  (c2_table_refinement [("Journée du 05/01/2025").toList, ("Heures").toList,
    ("00:00\t1000.5\t1020.0\t990.2").toList] (by decide)).1

/-- C4 counterexample: the line Journ x/y contains the marker token and a
slash, so the code finalizes and emits the accumulated block, but its date
regex does not match, so the accumulator is not cleared: the 00:00 row is
emitted twice — refuting that no previously accumulated row is ever emitted
twice. -/
theorem c4_cex_row_emitted_twice :
    read_rte_file [("Journée du 05/01/2025").toList, ("Heures").toList,
        ("00:00\t1\t2\t3").toList, ("Journ x/y").toList, ("00:30\t4\t5\t6").toList] =
      .ok [⟨⟨2025, 1, 5⟩, ("00:00").toList, .fin (mkRat 1 1), .fin (mkRat 2 1), .fin (mkRat 3 1)⟩,
        ⟨⟨2025, 1, 5⟩, ("00:00").toList, .fin (mkRat 1 1), .fin (mkRat 2 1), .fin (mkRat 3 1)⟩,
        ⟨⟨2025, 1, 5⟩, ("00:30").toList, .fin (mkRat 4 1), .fin (mkRat 5 1), .fin (mkRat 6 1)⟩]
    ∧ List.count
        (⟨⟨2025, 1, 5⟩, ("00:00").toList, .fin (mkRat 1 1), .fin (mkRat 2 1), .fin (mkRat 3 1)⟩ : Row)
        [⟨⟨2025, 1, 5⟩, ("00:00").toList, .fin (mkRat 1 1), .fin (mkRat 2 1), .fin (mkRat 3 1)⟩,
          ⟨⟨2025, 1, 5⟩, ("00:00").toList, .fin (mkRat 1 1), .fin (mkRat 2 1), .fin (mkRat 3 1)⟩,
          ⟨⟨2025, 1, 5⟩, ("00:30").toList, .fin (mkRat 4 1), .fin (mkRat 5 1), .fin (mkRat 6 1)⟩] = 2 :=
  ⟨rfl, by decide⟩

/-- C4 (amended): for every line containing the marker token together with a
date substring that matches the date regex and is a valid calendar date,
processing the line finalizes and emits any previously accumulated block and
resets all in-progress state — accumulator cleared, data section flag false —
even when no column header follows.  A line containing the marker token and a
slash but no matching date substring finalizes and emits the block without
resetting, so a previously accumulated row can be emitted twice. -/
theorem c4_header_resets (st : ParseState) (l : Str) (day month year : Nat) (dt : Date)
    (hj : hasSubstr journTok (pyStrip l) = true)
    (hsl : (pyStrip l).contains '/' = true)
    (hsd : searchDate (pyStrip l) = some (day, month, year))
    (hpd : pdToDatetime year month day = some dt) :
    readStep st l = .ok ⟨flushDfs st, some dt, [], false⟩ := by
  have hne : ¬ (pyStrip l).isEmpty = true := by
    rcases hq : pyStrip l with _ | ⟨c, t⟩
    · rw [hq] at hj
      exact absurd hj (by decide)
    · simp
  unfold readStep
  rw [if_neg hne, if_pos (by rw [hj, hsl]; rfl)]
  simp only [hsd, hpd]

/-- Witness for C4: a date header line processed from a state holding an
accumulated one row block emits that block and resets the state. -/
theorem c4_header_resets_witness :
    readStep ⟨[], some ⟨2025, 1, 4⟩, [("00:00\t1\t2\t3").toList], true⟩
        (("Journée du 05/01/2025").toList) =
      .ok ⟨[[⟨⟨2025, 1, 4⟩, ("00:00").toList, .fin (mkRat 1 1), .fin (mkRat 2 1),
        .fin (mkRat 3 1)⟩]], some ⟨2025, 1, 5⟩, [], false⟩ :=
  c4_header_resets ⟨[], some ⟨2025, 1, 4⟩, [("00:00\t1\t2\t3").toList], true⟩
    (("Journée du 05/01/2025").toList) 5 1 2025 ⟨2025, 1, 5⟩
    (by decide) (by decide) (by decide) (by decide)
